import Mathlib

/-!
Shallow embedding of the token-vetting pipeline of the repository
(`src/bonkbot.py` and `src/trading_bot.py`).  Numeric JSON fields are
modelled as rationals; Python exception paths are modelled explicitly
(an `Option` result where the Python code can raise, a `none` liquidity
field where the JSON parse of the liquidity record raises).
-/

namespace Bonkbot

/-- Trading configuration constants of `bonkbot.py`:
`MIN_BUY_AMOUNT = 0.025`. -/
def MIN_BUY_AMOUNT : ℚ := 25 / 1000

/-- `MAX_BUY_AMOUNT = 0.1`. -/
def MAX_BUY_AMOUNT : ℚ := 1 / 10

/-- A parsed Dexscreener market record, with the fields `parse_coin_data`
and `check_bundled_supply` read.  `liquidityUsd = none` models the case
where the liquidity data is unavailable or malformed, so that
`float(market.get("liquidity", {}).get("usd", 0))` raises inside
`check_bundled_supply`. -/
structure Market where
  symbol : String
  priceUsd : ℚ
  volume24h : ℚ
  contractAddress : String
  supply : ℚ
  liquidityUsd : Option ℚ
deriving Repr, DecidableEq

/-- `check_bundled_supply(market)` of `bonkbot.py` (lines 103-113):
returns `total_supply > 0 and (liquidity / total_supply) > 10`; if the
extraction of the fields raises, the `except` branch returns `True`
("Assume suspicious if check fails"). -/
def check_bundled_supply (m : Market) : Bool :=
  match m.liquidityUsd with
  | none => true
  | some liquidity => decide (m.supply > 0) && decide (liquidity / m.supply > 10)

/-- Rejection reasons of the filter chain of `parse_coin_data`, in the
spec vocabulary: the four `continue` branches at lines 126-135. -/
inductive Reason where
  | BLACKLIST
  | MIN_VOLUME
  | SAFETY_STATUS
  | SUPPLY_CONCENTRATION
deriving Repr, DecidableEq

/-- Per-market verdict: `admitted a` models reaching the buy simulation
with `buy_amount = a`; `reject r` models the `continue` whose guard
fired. -/
inductive Verdict where
  | admitted (buyAmount : ℚ)
  | reject (r : Reason)
deriving Repr, DecidableEq

/-- External checks performed while filtering one market: the RugCheck
API call of line 130 and the bundled-supply inspection of line 133. -/
inductive Check where
  | rugcheck
  | supplyCheck
deriving Repr, DecidableEq

/-- The filter chain applied to one market by `parse_coin_data`
(lines 126-139), together with the list of checks performed, in order.
`rugcheckGood` is the oracle for `check_rugcheck(contract_address)`
(an external HTTP call).  The chain is the literal `if`/`continue`
ladder of the source:
blacklist, then minimum volume, then RugCheck, then bundled supply;
a market surviving all four reaches
`buy_amount = max(MIN_BUY_AMOUNT, min(MAX_BUY_AMOUNT, price))`. -/
def evalMarket (blacklist : List String) (minVolume : ℚ)
    (rugcheckGood : String → Bool) (m : Market) : Verdict × List Check :=
  if m.symbol ∈ blacklist then
    (.reject .BLACKLIST, [])
  else if m.volume24h < minVolume then
    (.reject .MIN_VOLUME, [])
  else if ¬ rugcheckGood m.contractAddress then
    (.reject .SAFETY_STATUS, [.rugcheck])
  else if check_bundled_supply m then
    (.reject .SUPPLY_CONCENTRATION, [.rugcheck, .supplyCheck])
  else
    (.admitted (max MIN_BUY_AMOUNT (min MAX_BUY_AMOUNT m.priceUsd)),
      [.rugcheck, .supplyCheck])

/-- Observable outcome of one `send_telegram_message` call
(`bonkbot.py` lines 65-75): exactly one POST is attempted; a
`RequestException` is caught and logged (`loggedWarning = true`) and is
never re-raised (`raised = false`). -/
structure NotifyOutcome where
  attempts : ℕ
  raised : Bool
  loggedWarning : Bool
deriving Repr, DecidableEq

/-- `send_telegram_message(message)` as a function of whether the
transport fails: one attempt, failure logged only, nothing raised. -/
def send_telegram_message (transportFails : Bool) : NotifyOutcome :=
  { attempts := 1, raised := false, loggedWarning := transportFails }

/-- The per-batch loop of `parse_coin_data` (lines 119-141): each market
is filtered; an admitted market triggers one Telegram notification
(whose transport failure is given by the oracle `notifyFails`).  Returns
the verdicts in order and the notification outcomes of the admitted
markets. -/
def parse_coin_data (blacklist : List String) (minVolume : ℚ)
    (rugcheckGood : String → Bool) (notifyFails : String → Bool) :
    List Market → List Verdict × List NotifyOutcome
  | [] => ([], [])
  | m :: rest =>
    let v := (evalMarket blacklist minVolume rugcheckGood m).1
    let tail := parse_coin_data blacklist minVolume rugcheckGood notifyFails rest
    match v with
    | .admitted _ => (v :: tail.1, send_telegram_message (notifyFails m.symbol) :: tail.2)
    | .reject _ => (v :: tail.1, tail.2)

end Bonkbot

namespace TradingBot

/-- Default retry configuration of `SuperTradingBot.__init__`
(`trading_bot.py` lines 35-36): `self.max_retries = 3`. -/
def default_max_retries : ℕ := 3

/-- `self.retry_delay = 5`. -/
def default_retry_delay : ℕ := 5

/-- Observable trace of one `api_request` call: number of attempts made,
the sleeps performed between attempts (each of `retry_delay` time-units,
in order), and the returned value (`none` = the `return None` after the
last failed attempt). -/
structure ReqTrace (D : Type) where
  attempts : ℕ
  sleeps : List ℕ
  result : Option D
deriving Repr, DecidableEq

/-- The body of the `for attempt in range(self.max_retries)` loop of
`api_request` (`trading_bot.py` lines 109-123), indexed by the remaining
fuel `max_retries - attempt`.  `outcome attempt` is `some d` when the
HTTP request of that attempt succeeds with payload `d` and `none` when
it raises a `RequestException`.  On failure the code sleeps
`retry_delay` iff `attempt < max_retries - 1` (i.e. fuel remains) and
otherwise returns `None`. -/
def api_request_aux (outcome : ℕ → Option D) (retry_delay : ℕ) :
    (attempt fuel : ℕ) → ReqTrace D
  | _, 0 => ⟨0, [], none⟩
  | attempt, fuel + 1 =>
    match outcome attempt with
    | some d => ⟨1, [], some d⟩
    | none =>
      if fuel = 0 then ⟨1, [], none⟩
      else
        let t := api_request_aux outcome retry_delay (attempt + 1) fuel
        ⟨t.attempts + 1, retry_delay :: t.sleeps, t.result⟩

/-- `SuperTradingBot.api_request` (lines 106-123) as a trace: run the
retry loop from attempt `0` with `max_retries` iterations available. -/
def api_request (outcome : ℕ → Option D) (max_retries retry_delay : ℕ) :
    ReqTrace D :=
  api_request_aux outcome retry_delay 0 max_retries

/-- Python float division: raises `ZeroDivisionError` (modelled `none`)
when the divisor is zero. -/
def pyDiv (a b : ℚ) : Option ℚ :=
  if b = 0 then none else some (a / b)

/-- The price-trend expression of `process_token` (line 143):
`((price_data[-1] - price_data[0]) / price_data[0] * 100) if
len(price_data) >= 5 else 0.0`.  `none` models an uncaught (here)
`ZeroDivisionError`; there is no zero guard in the source. -/
def price_trend (price_data : List ℚ) : Option ℚ :=
  if 5 ≤ price_data.length then
    (pyDiv (price_data.getLastD 0 - price_data.headD 0) (price_data.headD 0)).map
      (fun q => q * 100)
  else
    some 0

/-- RugCheck summary payload as read by `process_token` (lines 135-137):
optional fields are absent JSON keys, read with `.get` defaults. -/
structure RugcheckData where
  status : Option String
  name : Option String
  risk_score : ℚ
deriving Repr, DecidableEq

/-- GMGN metrics payload as read by `process_token` (lines 140-142). -/
structure GmgnMetrics where
  top_holders_count : ℕ
  trading_volume_24h : ℚ
  price_history : List ℚ
deriving Repr, DecidableEq

/-- A row written to the `tokens` table by `process_token`
(lines 150-156). -/
structure TokenRow where
  token_address : String
  name : String
  category : String
  top_holders : ℕ
  trading_volume : ℚ
  price_trend : ℚ
  status : String
  risk_score : ℚ
deriving Repr, DecidableEq

/-- Observable side effects of one `process_token` call: historical-data
saves (`save_historical_data`), `tokens`-table writes, ToxiSolBot trade
calls `(address, side, amount)` and alert messages, each in order. -/
structure ProcessEffects where
  histSaves : List (String × ℕ)
  dbWrites : List TokenRow
  trades : List (String × String × ℚ)
  alerts : List String
deriving Repr, DecidableEq

/-- No effects. -/
def ProcessEffects.empty : ProcessEffects := ⟨[], [], [], []⟩

/-- `SuperTradingBot.process_token` (lines 129-165) as a function of the
three adapter responses (each `none` = the Resilient Request Executor
returned `None` after exhausted retries).  Follows the source line by
line: an early `return` when the RugCheck lookup failed; metric fields
defaulted when the GMGN lookup failed; the price-trend expression, whose
`ZeroDivisionError` aborts the `try` body so that the blanket
`except Exception` logs and no further effect happens; the historical
save; and, for `status == "GOOD"`, the database write, the `0.1`-SOL buy
and the alert. -/
def process_token (token_address : String) (rugcheck : Option RugcheckData)
    (gmgn : Option GmgnMetrics) (history : Option (List ℕ)) : ProcessEffects :=
  match rugcheck with
  | none => .empty
  | some rc =>
    let status := (rc.status.getD "UNKNOWN").toUpper
    let name := rc.name.getD "Unknown"
    let risk_score := rc.risk_score
    let top_holders := (gmgn.map GmgnMetrics.top_holders_count).getD 0
    let trading_volume := (gmgn.map GmgnMetrics.trading_volume_24h).getD 0
    let price_data := (gmgn.map GmgnMetrics.price_history).getD []
    match price_trend price_data with
    | none => .empty
    | some trend =>
      let histSaves := match history with
        | some h => [(token_address, h.length)]
        | none => []
      if status = "GOOD" then
        { histSaves := histSaves
          dbWrites := [⟨token_address, name, "manual", top_holders,
            trading_volume, trend, status, risk_score⟩]
          trades := [(token_address, "buy", 1 / 10)]
          alerts := ["GOOD token found: " ++ name ++ " (" ++ token_address
            ++ ") - Bought 0.1 SOL worth"] }
      else
        { histSaves := histSaves, dbWrites := [], trades := [], alerts := [] }

/-- One entry of the list returned by `predict_and_rank`, as read by the
ranked-batch loop of `SuperTradingBot.run` (lines 185-189). -/
structure RankedToken where
  token_address : String
  name : String
  success_probability : ℚ
deriving Repr, DecidableEq

/-- The ranked-batch dispatch of `SuperTradingBot.run` (lines 185-189):
`for token in ranked_tokens[:5]: if token["success_probability"] > 0.7:
self.toxisolbot_trade(token["token_address"], "buy", 0.05)`.  Returns
the `(address, amount)` pairs dispatched, in order. -/
def ranked_dispatch (ranked_tokens : List RankedToken) : List (String × ℚ) :=
  (ranked_tokens.take 5).filterMap fun t =>
    if t.success_probability > 7 / 10 then some (t.token_address, 5 / 100)
    else none

end TradingBot

/-! ## Claims -/

/-- C1 counterexample: the claim says a record with liquidity=50 and
supply=1000 (ratio 0.05 ≤ 10) is rejected with reason
SUPPLY_CONCENTRATION.  In the code `check_bundled_supply` returns
`False` on that record (the flag fires only when the ratio exceeds 10),
so the record passes the supply check and — all other filters passing —
is admitted, not rejected. -/
theorem c1_counterexample :
    Bonkbot.check_bundled_supply ⟨"TOK", 1/2, 100000, "addr", 1000, some 50⟩ = false ∧
    (Bonkbot.evalMarket [] 0 (fun _ => true)
        ⟨"TOK", 1/2, 100000, "addr", 1000, some 50⟩).1 ≠
      Bonkbot.Verdict.reject .SUPPLY_CONCENTRATION := by
  constructor
  · norm_num [Bonkbot.check_bundled_supply]
  · norm_num [Bonkbot.evalMarket, Bonkbot.check_bundled_supply]
    exact fun h => Bonkbot.Verdict.noConfusion h

/-- C1 (amended): for a record with positive total supply and available
liquidity data that passed the earlier filters, the SUPPLY_CONCENTRATION
rejection fires exactly when liquidity/supply EXCEEDS 10 — the polarity
is the reverse of the claim: a ratio at or below 10 passes the check. -/
theorem c1_supply_concentration_polarity (bl : List String) (mv : ℚ)
    (rug : String → Bool) (m : Bonkbot.Market) (l : ℚ)
    (hbl : m.symbol ∉ bl) (hv : ¬ m.volume24h < mv)
    (hrg : rug m.contractAddress = true)
    (hl : m.liquidityUsd = some l) (hs : 0 < m.supply) :
    (Bonkbot.evalMarket bl mv rug m).1 = .reject .SUPPLY_CONCENTRATION ↔
      10 < l / m.supply := by
  by_cases hr : 10 < l / m.supply <;>
    simp [Bonkbot.evalMarket, Bonkbot.check_bundled_supply, hbl, hv, hrg, hl, hs, hr]

/-- C1 witness: a record with liquidity=50000 and supply=1000
(ratio 50 > 10), all earlier filters passing, is rejected with reason
SUPPLY_CONCENTRATION. -/
theorem c1_supply_concentration_polarity_witness :
    (Bonkbot.evalMarket [] 0 (fun _ => true)
        ⟨"TOK", 1/2, 100000, "addr", 1000, some 50000⟩).1 =
      .reject .SUPPLY_CONCENTRATION ↔ 10 < (50000 : ℚ) / 1000 :=
  c1_supply_concentration_polarity [] 0 (fun _ => true)
    ⟨"TOK", 1/2, 100000, "addr", 1000, some 50000⟩ 50000
    (by simp) (by norm_num) rfl rfl (by norm_num)

/-- C2 counterexample: the claim says a record with total supply = 0 is
treated as suspicious and rejected regardless of liquidity.  In the code
`total_supply > 0 and ...` evaluates to `False` for supply = 0, so
`check_bundled_supply` does NOT flag the record and — all other filters
passing — it is admitted. -/
theorem c2_counterexample :
    Bonkbot.check_bundled_supply ⟨"TOK", 1/2, 100000, "addr", 0, some 50⟩ = false ∧
    (Bonkbot.evalMarket [] 0 (fun _ => true)
        ⟨"TOK", 1/2, 100000, "addr", 0, some 50⟩).1 ≠
      Bonkbot.Verdict.reject .SUPPLY_CONCENTRATION := by
  constructor
  · norm_num [Bonkbot.check_bundled_supply]
  · norm_num [Bonkbot.evalMarket, Bonkbot.check_bundled_supply]
    exact fun h => Bonkbot.Verdict.noConfusion h

/-- C2 (amended): with liquidity data available, a record whose total
supply is 0 passes the supply check (the predicate fails OPEN, returning
`False`); the fail-closed behaviour holds only when the liquidity data
is unavailable, i.e. when the field extraction raises and the `except`
branch returns `True`. -/
theorem c2_zero_supply_fails_open (m : Bonkbot.Market) :
    (m.supply = 0 → m.liquidityUsd ≠ none →
      Bonkbot.check_bundled_supply m = false) ∧
    (m.liquidityUsd = none → Bonkbot.check_bundled_supply m = true) := by
  constructor
  · intro hs hl
    cases hliq : m.liquidityUsd with
    | none => exact absurd hliq hl
    | some l => simp [Bonkbot.check_bundled_supply, hliq, hs]
  · intro hl
    simp [Bonkbot.check_bundled_supply, hl]

/-- C2 witness: supply 0 with liquidity 50 is not flagged; a record
whose liquidity extraction raises is flagged. -/
theorem c2_zero_supply_fails_open_witness :
    Bonkbot.check_bundled_supply ⟨"T", 1, 5, "a", 0, some 50⟩ = false ∧
    Bonkbot.check_bundled_supply ⟨"T", 1, 5, "a", 7, none⟩ = true :=
  ⟨(c2_zero_supply_fails_open ⟨"T", 1, 5, "a", 0, some 50⟩).1 rfl (by simp),
   (c2_zero_supply_fails_open ⟨"T", 1, 5, "a", 7, none⟩).2 rfl⟩

/-- C3 counterexample: the claim says a price history of length ≥ 5
whose first element is 0 yields trend exactly 0.0 with no
division-by-zero.  The source has no zero guard: on `[0,1,2,3,4]` the
expression `(price_data[-1] - price_data[0]) / price_data[0]` raises
`ZeroDivisionError` (modelled as `none`), so the trend is not computed
as 0.0. -/
theorem c3_counterexample :
    TradingBot.price_trend [0, 1, 2, 3, 4] = none ∧
    TradingBot.price_trend [0, 1, 2, 3, 4] ≠ some 0 := by
  have h : TradingBot.price_trend [0, 1, 2, 3, 4] = none := by
    norm_num [TradingBot.price_trend, TradingBot.pyDiv]
  exact ⟨h, by rw [h]; exact fun hc => Option.noConfusion hc⟩

/-- C3 (amended): for a price history of length ≥ 5 with first element
0, the trend expression raises `ZeroDivisionError` (no guard exists in
the source); the blanket `except Exception` of `process_token` catches
it, so the token is skipped with zero observable side effects — the
trend is never delivered as 0.0. -/
theorem c3_zero_first_raises (pd : List ℚ) (h5 : 5 ≤ pd.length)
    (h0 : pd.headD 0 = 0) :
    TradingBot.price_trend pd = none ∧
    ∀ (addr : String) (rc : TradingBot.RugcheckData)
      (gm : TradingBot.GmgnMetrics) (hist : Option (List ℕ)),
      gm.price_history = pd →
      TradingBot.process_token addr (some rc) (some gm) hist =
        TradingBot.ProcessEffects.empty := by
  rw [List.headD_eq_head?] at h0
  have htrend : TradingBot.price_trend pd = none := by
    simp [TradingBot.price_trend, TradingBot.pyDiv, h5, h0]
  refine ⟨htrend, ?_⟩
  intro addr rc gm hist hpd
  simp [TradingBot.process_token, hpd, htrend]

/-- C3 witness: the concrete history `[0, 1, 2, 3, 4]` raises and the
token with that history produces no effects even with a GOOD safety
status. -/
theorem c3_zero_first_raises_witness :
    TradingBot.price_trend [0, 1, 2, 3, 4] = none ∧
    TradingBot.process_token "addr" (some ⟨some "GOOD", some "Tok", 1/10⟩)
      (some ⟨3, 500, [0, 1, 2, 3, 4]⟩) (some []) =
      TradingBot.ProcessEffects.empty :=
  ⟨(c3_zero_first_raises [0, 1, 2, 3, 4] (by norm_num) (by norm_num)).1,
   (c3_zero_first_raises [0, 1, 2, 3, 4] (by norm_num) (by norm_num)).2
     "addr" ⟨some "GOOD", some "Tok", 1/10⟩ ⟨3, 500, [0, 1, 2, 3, 4]⟩
     (some []) rfl⟩

/-- C7: the price-trend computation returns exactly 0.0 for histories
shorter than 5 samples, and `(last - first) / first * 100` for histories
of length ≥ 5 with nonzero first element. -/
theorem c7_price_trend_formula (pd : List ℚ) :
    (pd.length < 5 → TradingBot.price_trend pd = some 0) ∧
    (5 ≤ pd.length → pd.headD 0 ≠ 0 →
      TradingBot.price_trend pd =
        some ((pd.getLastD 0 - pd.headD 0) / pd.headD 0 * 100)) := by
  constructor
  · intro hlen
    simp [TradingBot.price_trend, Nat.not_le.mpr hlen]
  · intro hlen h0
    rw [List.headD_eq_head?] at h0
    simp [TradingBot.price_trend, TradingBot.pyDiv, hlen, h0]

/-- C7 witness: `[1, 2]` (length 2) yields trend 0; `[1, 2, 3, 4, 5]`
yields `(5 - 1) / 1 * 100 = 400`. -/
theorem c7_price_trend_formula_witness :
    TradingBot.price_trend [1, 2] = some 0 ∧
    TradingBot.price_trend [1, 2, 3, 4, 5] = some 400 := by
  refine ⟨(c7_price_trend_formula [1, 2]).1 (by norm_num), ?_⟩
  have h := (c7_price_trend_formula [1, 2, 3, 4, 5]).2 (by norm_num) (by norm_num)
  rw [h]
  norm_num

/-- C4 counterexample: the claim says every token with score at or
above the 0.7 threshold is dispatched from the ranked batch.  The code
uses a strict comparison (`success_probability > 0.7`), so a token whose
score is exactly 0.7 is not dispatched. -/
theorem c4_counterexample :
    TradingBot.ranked_dispatch [⟨"addr1", "Tok1", 7/10⟩] = [] := by
  norm_num [TradingBot.ranked_dispatch]

/-- C4 (amended): a `(address, amount)` pair is dispatched from the
ranked batch exactly when it comes from one of the FIRST FIVE ranked
tokens whose score is STRICTLY above 0.7, and every dispatched amount is
the halved trade amount 0.05; tokens at exactly the threshold, or beyond
the top five, are not dispatched. -/
theorem c4_ranked_dispatch (ranked : List TradingBot.RankedToken)
    (p : String × ℚ) :
    p ∈ TradingBot.ranked_dispatch ranked ↔
      ∃ t ∈ ranked.take 5, 7/10 < t.success_probability ∧
        p = (t.token_address, 5/100) := by
  simp only [TradingBot.ranked_dispatch, List.mem_filterMap]
  constructor
  · rintro ⟨t, ht, hp⟩
    by_cases hgt : t.success_probability > 7/10
    · rw [if_pos hgt] at hp
      exact ⟨t, ht, hgt, (Option.some_inj.mp hp).symm⟩
    · rw [if_neg hgt] at hp
      exact absurd hp (by simp)
  · rintro ⟨t, ht, hgt, hp⟩
    exact ⟨t, ht, by rw [if_pos hgt, hp]⟩

/-- C4 witness: in a batch of six tokens, the one at exactly 0.7 and
the sixth-ranked 0.99 token are not dispatched; the 0.85 token is
dispatched with amount 0.05. -/
theorem c4_ranked_dispatch_witness :
    (("a1", 5/100) ∈ TradingBot.ranked_dispatch
        [⟨"a1", "T1", 85/100⟩, ⟨"a2", "T2", 7/10⟩, ⟨"a3", "T3", 6/10⟩,
         ⟨"a4", "T4", 1/2⟩, ⟨"a5", "T5", 2/5⟩, ⟨"a6", "T6", 99/100⟩] ↔
      ∃ t ∈ [⟨"a1", "T1", 85/100⟩, ⟨"a2", "T2", 7/10⟩, ⟨"a3", "T3", 6/10⟩,
         ⟨"a4", "T4", 1/2⟩, ⟨"a5", "T5", 2/5⟩,
         (⟨"a6", "T6", 99/100⟩ : TradingBot.RankedToken)].take 5,
        7/10 < t.success_probability ∧ ("a1", (5/100 : ℚ)) =
          (t.token_address, 5/100)) ∧
    (("a6", 5/100) ∈ TradingBot.ranked_dispatch
        [⟨"a1", "T1", 85/100⟩, ⟨"a2", "T2", 7/10⟩, ⟨"a3", "T3", 6/10⟩,
         ⟨"a4", "T4", 1/2⟩, ⟨"a5", "T5", 2/5⟩, ⟨"a6", "T6", 99/100⟩] ↔
      ∃ t ∈ [⟨"a1", "T1", 85/100⟩, ⟨"a2", "T2", 7/10⟩, ⟨"a3", "T3", 6/10⟩,
         ⟨"a4", "T4", 1/2⟩, ⟨"a5", "T5", 2/5⟩,
         (⟨"a6", "T6", 99/100⟩ : TradingBot.RankedToken)].take 5,
        7/10 < t.success_probability ∧ ("a6", (5/100 : ℚ)) =
          (t.token_address, 5/100)) :=
  ⟨c4_ranked_dispatch _ _, c4_ranked_dispatch _ _⟩

/-- Helper for C5: running the retry loop from any attempt index with an
always-failing outcome makes exactly `fuel` attempts and sleeps
`fuel - 1` times. -/
theorem api_request_aux_all_fail (delay : ℕ) (fuel : ℕ) (hf : 1 ≤ fuel) :
    ∀ attempt, TradingBot.api_request_aux (D := Unit) (fun _ => none) delay
        attempt fuel = ⟨fuel, List.replicate (fuel - 1) delay, none⟩ := by
  induction fuel with
  | zero => omega
  | succ f ih =>
    intro attempt
    match f, ih with
    | 0, _ => simp [TradingBot.api_request_aux]
    | g + 1, ih =>
      rw [TradingBot.api_request_aux]
      simp only [Nat.succ_ne_zero, if_false]
      rw [ih (by omega) (attempt + 1)]
      simp [List.replicate_succ]

/-- C5: an adapter call that fails on every attempt makes exactly
`max_retries` attempts (default 3), sleeps the fixed `retry_delay`
(default 5) between each pair of consecutive attempts — `max_retries -
1` sleeps in all — and returns `None` instead of raising. -/
theorem c5_retry_bound (max_retries retry_delay : ℕ) (h : 1 ≤ max_retries) :
    TradingBot.api_request (D := Unit) (fun _ => none) max_retries
        retry_delay =
      ⟨max_retries, List.replicate (max_retries - 1) retry_delay, none⟩ :=
  api_request_aux_all_fail retry_delay max_retries h 0

/-- C5 witness: with the default configuration (3 retries, delay 5) the
trace is 3 attempts, sleeps `[5, 5]`, result `None`. -/
theorem c5_retry_bound_witness :
    TradingBot.api_request (D := Unit) (fun _ => none)
        TradingBot.default_max_retries TradingBot.default_retry_delay =
      ⟨3, [5, 5], none⟩ := by
  have h := c5_retry_bound TradingBot.default_max_retries
    TradingBot.default_retry_delay (by norm_num [TradingBot.default_max_retries])
  rw [h]
  rfl

/-- C6: the filter chain of `parse_coin_data` runs BLACKLIST,
MIN_VOLUME, SAFETY_STATUS, SUPPLY_CONCENTRATION in that fixed order and
short-circuits: each reason fires exactly when its own predicate fails
and every earlier predicate passed; in particular a blacklisted symbol
is rejected with reason BLACKLIST and performs no external check at all
(no RugCheck call, no supply inspection). -/
theorem c6_filter_chain_order (bl : List String) (mv : ℚ)
    (rug : String → Bool) (m : Bonkbot.Market) :
    (Bonkbot.evalMarket bl mv rug m = (.reject .BLACKLIST, []) ↔
      m.symbol ∈ bl) ∧
    ((Bonkbot.evalMarket bl mv rug m).1 = .reject .MIN_VOLUME ↔
      m.symbol ∉ bl ∧ m.volume24h < mv) ∧
    ((Bonkbot.evalMarket bl mv rug m).1 = .reject .SAFETY_STATUS ↔
      m.symbol ∉ bl ∧ ¬ m.volume24h < mv ∧ rug m.contractAddress = false) ∧
    ((Bonkbot.evalMarket bl mv rug m).1 = .reject .SUPPLY_CONCENTRATION ↔
      m.symbol ∉ bl ∧ ¬ m.volume24h < mv ∧ rug m.contractAddress = true ∧
      Bonkbot.check_bundled_supply m = true) := by
  by_cases h1 : m.symbol ∈ bl <;>
    by_cases h2 : m.volume24h < mv <;>
      by_cases h3 : rug m.contractAddress = true <;>
        by_cases h4 : Bonkbot.check_bundled_supply m = true <;>
          simp [Bonkbot.evalMarket, h1, h2, h3, h4]

/-- C6 witness: the spec scenario — symbol "SCAM" in the blacklist,
volume 100000 — is rejected with reason BLACKLIST and an empty list of
performed checks, whatever the safety oracle would have answered. -/
theorem c6_filter_chain_order_witness :
    Bonkbot.evalMarket ["SCAM"] 1000 (fun _ => false)
        ⟨"SCAM", 1, 100000, "addr", 0, none⟩ =
      (.reject .BLACKLIST, []) :=
  (c6_filter_chain_order ["SCAM"] 1000 (fun _ => false)
      ⟨"SCAM", 1, 100000, "addr", 0, none⟩).1.mpr (by simp)

/-- C8: every admitted market is dispatched with the buy amount
`max(MIN_BUY_AMOUNT, min(MAX_BUY_AMOUNT, price))` — the clamp of the
price to `[MIN_BUY_AMOUNT, MAX_BUY_AMOUNT]` — and that amount always
lies within `[0.025, 0.1]`. -/
theorem c8_buy_amount_clamped (bl : List String) (mv : ℚ)
    (rug : String → Bool) (m : Bonkbot.Market) (a : ℚ)
    (calls : List Bonkbot.Check)
    (h : Bonkbot.evalMarket bl mv rug m = (.admitted a, calls)) :
    a = max Bonkbot.MIN_BUY_AMOUNT (min Bonkbot.MAX_BUY_AMOUNT m.priceUsd) ∧
    Bonkbot.MIN_BUY_AMOUNT ≤ a ∧ a ≤ Bonkbot.MAX_BUY_AMOUNT := by
  unfold Bonkbot.evalMarket at h
  split_ifs at h
  all_goals simp only [Prod.mk.injEq] at h
  all_goals first
    | (have ha : a = max Bonkbot.MIN_BUY_AMOUNT
          (min Bonkbot.MAX_BUY_AMOUNT m.priceUsd) :=
        (Bonkbot.Verdict.admitted.inj h.1).symm
       refine ⟨ha, ?_, ?_⟩
       · rw [ha]; exact le_max_left _ _
       · rw [ha]
         exact max_le
           (by norm_num [Bonkbot.MIN_BUY_AMOUNT, Bonkbot.MAX_BUY_AMOUNT])
           (min_le_left _ _))
    | exact absurd h.1 (by simp)

/-- C8 witness: a market priced at 0.5 SOL passing every filter is
admitted with amount `clamp(0.5, 0.025, 0.1) = 0.1`, inside the bounds. -/
theorem c8_buy_amount_clamped_witness :
    (1 : ℚ)/10 = max Bonkbot.MIN_BUY_AMOUNT
      (min Bonkbot.MAX_BUY_AMOUNT (1/2)) ∧
    Bonkbot.MIN_BUY_AMOUNT ≤ (1 : ℚ)/10 ∧
    (1 : ℚ)/10 ≤ Bonkbot.MAX_BUY_AMOUNT :=
  c8_buy_amount_clamped [] 0 (fun _ => true)
    ⟨"TOK", 1/2, 100000, "addr", 1000, some 50⟩ (1/10)
    [.rugcheck, .supplyCheck]
    (by norm_num [Bonkbot.evalMarket, Bonkbot.check_bundled_supply,
      Bonkbot.MIN_BUY_AMOUNT, Bonkbot.MAX_BUY_AMOUNT])

/-- C9: notification failure is fire-and-forget.  The verdicts computed
for a batch are identical whatever the notification transport does, the
whole batch is processed (one verdict per market — a notification
failure never aborts the loop), and every notification outcome consists
of a single attempt that raises nothing (failure is logged only, never
retried). -/
theorem c9_notify_fire_and_forget (bl : List String) (mv : ℚ)
    (rug : String → Bool) (nf nf2 : String → Bool)
    (ms : List Bonkbot.Market) :
    (Bonkbot.parse_coin_data bl mv rug nf ms).1 =
      (Bonkbot.parse_coin_data bl mv rug nf2 ms).1 ∧
    (Bonkbot.parse_coin_data bl mv rug nf ms).1.length = ms.length ∧
    ∀ o ∈ (Bonkbot.parse_coin_data bl mv rug nf ms).2,
      o.raised = false ∧ o.attempts = 1 := by
  induction ms with
  | nil => simp [Bonkbot.parse_coin_data]
  | cons m rest ih =>
    obtain ⟨ih1, ih2, ih3⟩ := ih
    cases hv : (Bonkbot.evalMarket bl mv rug m).1 with
    | admitted a =>
      refine ⟨?_, ?_, ?_⟩
      · simp [Bonkbot.parse_coin_data, hv, ih1]
      · simp [Bonkbot.parse_coin_data, hv, ih2]
      · intro o ho
        simp only [Bonkbot.parse_coin_data, hv, List.mem_cons] at ho
        rcases ho with ho | ho
        · subst ho
          exact ⟨rfl, rfl⟩
        · exact ih3 o ho
    | reject r =>
      refine ⟨?_, ?_, ?_⟩
      · simp [Bonkbot.parse_coin_data, hv, ih1]
      · simp [Bonkbot.parse_coin_data, hv, ih2]
      · intro o ho
        simp only [Bonkbot.parse_coin_data, hv] at ho
        exact ih3 o ho

/-- C9 witness: for a one-market batch whose notification transport
fails, the verdicts equal those of the same batch with a working
transport, and the recorded notification outcome raised nothing after a
single attempt. -/
theorem c9_notify_fire_and_forget_witness :
    (Bonkbot.parse_coin_data [] 0 (fun _ => true) (fun _ => true)
        [⟨"TOK", 1/2, 100000, "addr", 1000, some 50⟩]).1 =
      (Bonkbot.parse_coin_data [] 0 (fun _ => true) (fun _ => false)
        [⟨"TOK", 1/2, 100000, "addr", 1000, some 50⟩]).1 ∧
    Bonkbot.NotifyOutcome.raised ⟨1, false, true⟩ = false ∧
    Bonkbot.NotifyOutcome.attempts ⟨1, false, true⟩ = 1 :=
  ⟨(c9_notify_fire_and_forget [] 0 (fun _ => true) (fun _ => true)
      (fun _ => false) [⟨"TOK", 1/2, 100000, "addr", 1000, some 50⟩]).1,
   (c9_notify_fire_and_forget [] 0 (fun _ => true) (fun _ => true)
      (fun _ => false) [⟨"TOK", 1/2, 100000, "addr", 1000, some 50⟩]).2.2
     ⟨1, false, true⟩
     (by norm_num [Bonkbot.parse_coin_data, Bonkbot.evalMarket,
       Bonkbot.check_bundled_supply, Bonkbot.send_telegram_message])⟩

/-- C10: when the safety-report lookup returns Failure (`None` after
exhausted retries), `process_token` returns immediately: no
historical-data save, no database write, no trade intent and no alert
are emitted, whatever the other adapters would have answered. -/
theorem c10_failed_safety_lookup_no_effects (addr : String)
    (gmgn : Option TradingBot.GmgnMetrics) (history : Option (List ℕ)) :
    TradingBot.process_token addr none gmgn history =
      TradingBot.ProcessEffects.empty := rfl
